import Mathlib

/-!
Verification of the tlserver translation dispatch service.

This file is a shallow embedding of the core of the repository:
the configuration uniqueness validator (`config.py`), the command
protocol (`handler.py`), the input/output text filters (`plugins.py`),
and the per-backend session state machines (`translators/llm.py`,
`translators/offline.py`).  External collaborators (the litellm
completion API and the ctranslate2 engine) are abstracted as oracle
functions, exactly as the design treats them as collaborators behind
the `Translator` capability interface.

Python conventions reproduced here:

* Methods that can raise are modelled with `PyResult`, which carries the
  object state both on normal return and on a raised exception (Python
  mutations performed before a raise persist).
* `plugins.process_input_text` is declared with exactly one positional
  parameter; `callProcessInputText` models the call-arity semantics of
  Python, raising `TypeError` when the argument count differs.
* `list[-n:]` slicing is modelled by `pySliceFrom`, including the
  Python quirk that `-0 == 0`, so `list[-0:]` is the whole list.
* `str.format(**subs)` over the system-prompt template is modelled by
  `pyFormat` over a structured template (literal runs and named
  placeholders); a placeholder whose name is missing from the
  substitution mapping raises `KeyError`, while unused substitution
  entries are ignored, as in Python.
-/

/-- Exceptions that the modelled code can raise. -/
inductive PyError where
  | typeError
  | keyError (key : String)
deriving DecidableEq, Repr

/-- Result of running a Python method on an object of state `σ`:
either a normal return with the value and the post state, or a raised
exception together with the state at the moment of the raise
(mutations made before the raise persist, as in Python). -/
inductive PyResult (σ : Type) (α : Type) where
  | ok (value : α) (state : σ)
  | raised (err : PyError) (state : σ)
deriving DecidableEq, Repr

/-- The object state after the call, whether it returned or raised. -/
def PyResult.stateOf : PyResult σ α → σ
  | .ok _ s => s
  | .raised _ s => s

/-- Map over the returned value of a call. -/
def PyResult.map (f : α → β) : PyResult σ α → PyResult σ β
  | .ok v s => .ok (f v) s
  | .raised e s => .raised e s

/-- A positional argument of a Python call, as used at the two call
sites of `plugins.process_input_text` (a text string in both, plus the
term dictionary that `llm.py` erroneously passes). -/
inductive PyArg where
  | str (s : String)
  | dict (d : List (String × String))
deriving DecidableEq, Repr

/-- Decidable equality for `Except` results, used to evaluate scenarios. -/
instance [DecidableEq e] [DecidableEq a] : DecidableEq (Except e a) := fun x y =>
  match x, y with
  | Except.ok v, Except.ok w =>
      if h : v = w then Decidable.isTrue (by rw [h])
      else Decidable.isFalse (fun hc => h (Except.ok.inj hc))
  | Except.error v, Except.error w =>
      if h : v = w then Decidable.isTrue (by rw [h])
      else Decidable.isFalse (fun hc => h (Except.error.inj hc))
  | Except.ok _, Except.error _ => Decidable.isFalse (fun hc => Except.noConfusion hc)
  | Except.error _, Except.ok _ => Decidable.isFalse (fun hc => Except.noConfusion hc)

/-- Replace every non-overlapping occurrence of a non-empty pattern,
scanning left to right (the semantics of Python `str.replace`); the fuel
argument, instantiated with the input length, only serves structural
termination. -/
def replaceLoop (pat rep : List Char) : Nat → List Char → List Char
  | 0, l => l
  | _ + 1, [] => []
  | fuel + 1, c :: rest =>
      if pat.isPrefixOf (c :: rest) then
        rep ++ replaceLoop pat rep fuel ((c :: rest).drop pat.length)
      else c :: replaceLoop pat rep fuel rest

/-- Python `str.replace` for a non-empty pattern. -/
def pyReplace (s pattern replacement : String) : String :=
  String.mk (replaceLoop pattern.data replacement.data s.data.length s.data)

/-- plugins.filter_text: the text filter applied to inputs and outputs.
Order of the rewrites follows the source: newline to `<br>`, strip all
opening braces, strip U+FFFD, strip one trailing katakana KA, replace a
trailing `987` with `?`, strip one leading colon. -/
def filter_text (extracted_text : String) : String :=
  let result := extracted_text
  let result := pyReplace result "\n" "<br>"
  let result := pyReplace result "\x7b" ""
  let result := pyReplace result "\uFFFD" ""
  let result :=
    if ("\u30AB".data).isSuffixOf result.data
    then String.mk result.data.dropLast else result
  let result :=
    if ("987".data).isSuffixOf result.data
    then String.mk (result.data.dropLast.dropLast.dropLast ++ "?".data)
    else result
  let result :=
    if (":".data).isPrefixOf result.data
    then String.mk (result.data.drop 1) else result
  result

/-- plugins.process_input_text, declared with exactly one positional
parameter `input_text`. -/
def process_input_text (input_text : String) : String :=
  filter_text input_text

/-- plugins.process_output_text. -/
def process_output_text (output_text : String) : String :=
  filter_text output_text

/-- Python call semantics for `plugins.process_input_text`.  The
function is defined with exactly one positional parameter, so a call
supplying any other number of positional arguments raises `TypeError`
(`process_input_text() takes 1 positional argument but 2 were given`).
The single-argument non-string case never occurs at any call site of
the repository. -/
def callProcessInputText : List PyArg → Except PyError String
  | [PyArg.str s] => Except.ok (process_input_text s)
  | _ => Except.error PyError.typeError

/-- The fixed sentinel returned while translation is paused. -/
def pause_sentinel : String := "Translation is paused at the moment"

/-- A single apostrophe character, used to build the user-facing
rejection strings of the source verbatim. -/
def apos : String := String.singleton (Char.ofNat 39)

/-- The fixed soft rejection string for an unsupported language. -/
def doesnt_have_msg : String :=
  "sorry, translator doesn" ++ apos ++ "t have this language"

/-- The fixed soft rejection string of a backend that declares language
changes unsupported. -/
def cant_change_msg : String :=
  "sorry, this translator can" ++ apos ++ "t change languages"

/-- One piece of a system-prompt template: a literal run of text
(containing no brace), or a named `format` placeholder.  `phInput` and
`phOutput` are the placeholders the code tests for by substring search;
`phOther` is any other named placeholder. -/
inductive TemplatePart where
  | lit (s : String)
  | phInput
  | phOutput
  | phOther (name : String)
deriving DecidableEq, Repr

/-- A system-prompt template, as fed to `str.format`. -/
abbrev Template := List TemplatePart

/-- The name a part refers to, if it is a placeholder. -/
def placeholderName : TemplatePart → Option String
  | .lit _ => none
  | .phInput => some "input_language"
  | .phOutput => some "output_language"
  | .phOther name => some name

/-- Whether the template text contains the placeholder of the given
name; this models the substring tests of `_process_system_prompt`. -/
def Template.hasPlaceholder (tpl : Template) (name : String) : Bool :=
  tpl.any fun p => placeholderName p == some name

/-- Render one template part under a substitution mapping, raising
`KeyError` when a placeholder name is absent from the mapping, as
`str.format` does. -/
def renderPart (subs : List (String × String)) : TemplatePart → Except PyError String
  | .lit s => Except.ok s
  | .phInput =>
      match subs.lookup "input_language" with
      | some v => Except.ok v
      | none => Except.error (PyError.keyError "input_language")
  | .phOutput =>
      match subs.lookup "output_language" with
      | some v => Except.ok v
      | none => Except.error (PyError.keyError "output_language")
  | .phOther name =>
      match subs.lookup name with
      | some v => Except.ok v
      | none => Except.error (PyError.keyError name)

/-- `template.format(**subs)`: concatenate the rendered parts,
propagating the leftmost error. -/
def pyFormat (subs : List (String × String)) : Template → Except PyError String
  | [] => Except.ok ""
  | p :: rest =>
      match renderPart subs p, pyFormat subs rest with
      | Except.error e, _ => Except.error e
      | _, Except.error e => Except.error e
      | Except.ok s, Except.ok r => Except.ok (s ++ r)

/-- The substitution mapping `_process_system_prompt` builds: each of
the two known placeholders is added only when it actually occurs in the
template. -/
def subsFor (tpl : Template) (input_language output_language : String) :
    List (String × String) :=
  (if tpl.hasPlaceholder "input_language" then
      [("input_language", input_language)] else [])
  ++ (if tpl.hasPlaceholder "output_language" then
      [("output_language", output_language)] else [])

/-- A template is renderable by `_process_system_prompt` exactly when
each of its placeholders is one of the two names the method knows. -/
def TemplateOk (tpl : Template) : Bool :=
  tpl.all fun p =>
    match placeholderName p with
    | none => true
    | some n => n == "input_language" || n == "output_language"

/-- One entry of the conversation history (`role`, `content`). -/
structure Message where
  role : String
  content : String
deriving DecidableEq, Repr, Inhabited

/-- LLMTranslatorSettings: the fields of the LLM backend configuration
that the session logic reads.  Sampling parameters, the model endpoint
and the API key are consumed only by the external litellm call and are
abstracted into the engine oracle. -/
structure LLMTranslatorSettings where
  port : Option Int := some 14368
  path : Option String := none
  input_language : String := "Japanese"
  output_language : String := "English"
  supported_languages : List (String × String)
  system_prompt : Template
  context_lines : Int := 50
deriving DecidableEq, Repr

/-- The mutable state of an `LLMTranslator` session object. -/
structure LLMTranslator where
  config : LLMTranslatorSettings
  translator_ready_or_not : Bool
  can_change_language_or_not : Bool
  messages : List Message
  stop_translation : Bool
  system_prompt : String
  dictionary : List (String × String)
deriving DecidableEq, Repr

/-- LLMTranslator.check_if_language_available: membership of the display
name in the `supported_languages` mapping. -/
def LLMTranslator.check_if_language_available
    (self : LLMTranslator) (language : String) : Bool :=
  (self.config.supported_languages.lookup language).isSome

/-- LLMTranslator._process_system_prompt: clear `messages`, build the
substitutions for the placeholders present in the template, render the
template, store the rendered prompt and append it as the single system
entry.  When rendering raises, `messages` has already been cleared. -/
def LLMTranslator.process_system_prompt
    (self : LLMTranslator) : PyResult LLMTranslator Unit :=
  let self := { self with messages := [] }
  let subs := subsFor self.config.system_prompt
      self.config.input_language self.config.output_language
  match pyFormat subs self.config.system_prompt with
  | Except.error e => PyResult.raised e self
  | Except.ok rendered =>
      PyResult.ok () { self with
        system_prompt := rendered,
        messages := [Message.mk "system" rendered] }

/-- LLMTranslator.__init__ up to the dictionary load: the session starts
not ready, with language changes enabled, an empty history, translation
not stopped, and then runs `_process_system_prompt`.  The dictionary is
the mapping loaded from `dictionary.json` (empty when the file is
absent); the file system read itself is external. -/
def LLMTranslator.init (config : LLMTranslatorSettings)
    (dictionary : List (String × String)) : PyResult LLMTranslator Unit :=
  let self : LLMTranslator := {
    config := config
    translator_ready_or_not := false
    can_change_language_or_not := true
    messages := []
    stop_translation := false
    system_prompt := ""
    dictionary := dictionary }
  self.process_system_prompt

/-- Python slice `l[i:]`: a non-negative start drops that many leading
elements (note `-0 == 0`, so `l[-0:]` is all of `l`); a negative start
counts from the end, clamped at the beginning. -/
def pySliceFrom (l : List α) (i : Int) : List α :=
  if 0 ≤ i then l.drop i.toNat
  else l.drop (l.length - (-i).toNat)

/-- LLMTranslator._translate.  The first statement calls
`plugins.process_input_text(message, self.dictionary)` with two
positional arguments although the callee takes one, so the call raises
`TypeError` before the pause check is reached.  The remaining steps are
the source's: pause check, append the user entry, run the engine
(`self.execute()`, abstracted as `oracle`), append the assistant entry,
truncate to the first entry plus `messages[-context_lines:]` when the
history exceeds `context_lines`, and return the filtered result. -/
def LLMTranslator.translate_impl (oracle : List Message → String)
    (self : LLMTranslator) (message : String) : PyResult LLMTranslator String :=
  match callProcessInputText [PyArg.str message, PyArg.dict self.dictionary] with
  | Except.error e => PyResult.raised e self
  | Except.ok message =>
      if self.stop_translation then PyResult.ok pause_sentinel self
      else
        let self := { self with
          messages := self.messages ++ [Message.mk "user" message] }
        let result := oracle self.messages
        let self := { self with
          messages := self.messages ++ [Message.mk "assistant" result] }
        let self :=
          if self.config.context_lines < (self.messages.length : Int) then
            { self with messages :=
                self.messages.headI ::
                  pySliceFrom self.messages (-self.config.context_lines) }
          else self
        PyResult.ok (process_output_text result) self

/-- LLMTranslator.translate: `_translate` plus logging. -/
def LLMTranslator.translate (oracle : List Message → String)
    (self : LLMTranslator) (message : String) : PyResult LLMTranslator String :=
  LLMTranslator.translate_impl oracle self message

/-- The per-item loop of LLMTranslator.translate_batch: `_translate`
each input in order, propagating a raise with the state it left. -/
def LLMTranslator.translate_batch_loop (oracle : List Message → String)
    (self : LLMTranslator) : List String → PyResult LLMTranslator (List String)
  | [] => PyResult.ok [] self
  | t :: ts =>
      match LLMTranslator.translate_impl oracle self t with
      | PyResult.raised e st => PyResult.raised e st
      | PyResult.ok tr st =>
          match LLMTranslator.translate_batch_loop oracle st ts with
          | PyResult.raised e st2 => PyResult.raised e st2
          | PyResult.ok trs st2 => PyResult.ok (tr :: trs) st2

/-- LLMTranslator.translate_batch: when paused, return the one-element
sentinel list immediately; otherwise translate each input.  The final
`zip(..., strict=True)` logging pass cannot raise because the loop
produces exactly one translation per input. -/
def LLMTranslator.translate_batch (oracle : List Message → String)
    (self : LLMTranslator) (list_of_text_input : List String) :
    PyResult LLMTranslator (List String) :=
  if self.stop_translation then PyResult.ok [pause_sentinel] self
  else LLMTranslator.translate_batch_loop oracle self list_of_text_input

/-- LLMTranslator.change_output_language. -/
def LLMTranslator.change_output_language
    (self : LLMTranslator) (output_language : String) :
    PyResult LLMTranslator String :=
  if self.can_change_language_or_not then
    if self.check_if_language_available output_language then
      let self := { self with
        config := { self.config with output_language := output_language } }
      match self.process_system_prompt with
      | PyResult.raised e st => PyResult.raised e st
      | PyResult.ok _ st =>
          PyResult.ok ("output language changed to " ++ output_language) st
    else PyResult.ok doesnt_have_msg self
  else PyResult.ok cant_change_msg self

/-- LLMTranslator.change_input_language. -/
def LLMTranslator.change_input_language
    (self : LLMTranslator) (input_language : String) :
    PyResult LLMTranslator String :=
  if self.can_change_language_or_not then
    if self.check_if_language_available input_language then
      let self := { self with
        config := { self.config with input_language := input_language } }
      match self.process_system_prompt with
      | PyResult.raised e st => PyResult.raised e st
      | PyResult.ok _ st =>
          PyResult.ok ("input language changed to " ++ input_language) st
    else PyResult.ok doesnt_have_msg self
  else PyResult.ok cant_change_msg self

/-- LLMTranslator.pause. -/
def LLMTranslator.pauseOp (self : LLMTranslator) : LLMTranslator :=
  { self with stop_translation := true }

/-- LLMTranslator.resume. -/
def LLMTranslator.resumeOp (self : LLMTranslator) : LLMTranslator :=
  { self with stop_translation := false }

/-- LLMTranslator.activate. -/
def LLMTranslator.activateOp (self : LLMTranslator) : LLMTranslator :=
  { self with translator_ready_or_not := true }

/-- A command an LLM session can receive over its lifetime. -/
inductive LLMOp where
  | translateOp (message : String)
  | translateBatchOp (inputs : List String)
  | changeInputOp (language : String)
  | changeOutputOp (language : String)
  | pauseCmd
  | resumeCmd
  | activateCmd
deriving DecidableEq, Repr

/-- Whether an op is one of the two translation commands. -/
def LLMOp.isTranslation : LLMOp → Bool
  | .translateOp _ => true
  | .translateBatchOp _ => true
  | _ => false

/-- The session state after one command (the state on raise persists,
exactly as a raised exception leaves the Python object). -/
def LLMTranslator.step (oracle : List Message → String)
    (self : LLMTranslator) : LLMOp → LLMTranslator
  | .translateOp m => (LLMTranslator.translate oracle self m).stateOf
  | .translateBatchOp l => (LLMTranslator.translate_batch oracle self l).stateOf
  | .changeInputOp s => (LLMTranslator.change_input_language self s).stateOf
  | .changeOutputOp s => (LLMTranslator.change_output_language self s).stateOf
  | .pauseCmd => self.pauseOp
  | .resumeCmd => self.resumeOp
  | .activateCmd => self.activateOp

/-- The session state after a sequence of commands. -/
def LLMTranslator.run (oracle : List Message → String)
    (self : LLMTranslator) (ops : List LLMOp) : LLMTranslator :=
  ops.foldl (LLMTranslator.step oracle) self

/-- OfflineTranslatorSettings: the fields of the offline backend
configuration that the session logic reads.  The ctranslate2 model and
tokenizer paths, device and decoding parameters are consumed only by
the external engine and are abstracted into the engine oracle. -/
structure OfflineTranslatorSettings where
  port : Option Int := some 14366
  path : Option String := none
  input_language : String := "Japanese"
  output_language : String := "English"
  supported_languages : List (String × String)
deriving DecidableEq, Repr

/-- The mutable state of an `OfflineTranslator` session object. -/
structure OfflineTranslator where
  config : OfflineTranslatorSettings
  translator_ready_or_not : Bool
  can_change_language_or_not : Bool
  stop_translation : Bool
deriving DecidableEq, Repr

/-- OfflineTranslator.__init__: not ready, language changes permanently
declared unsupported, translation not stopped. -/
def OfflineTranslator.init (config : OfflineTranslatorSettings) : OfflineTranslator :=
  { config := config
    translator_ready_or_not := false
    can_change_language_or_not := false
    stop_translation := false }

/-- OfflineTranslator.activate (the ctranslate2 engine construction is
external). -/
def OfflineTranslator.activateOp (self : OfflineTranslator) : OfflineTranslator :=
  { self with translator_ready_or_not := true }

/-- OfflineTranslator.pause. -/
def OfflineTranslator.pauseOp (self : OfflineTranslator) : OfflineTranslator :=
  { self with stop_translation := true }

/-- OfflineTranslator.resume. -/
def OfflineTranslator.resumeOp (self : OfflineTranslator) : OfflineTranslator :=
  { self with stop_translation := false }

/-- OfflineTranslator.translate: when paused, return the sentinel
before any other work; otherwise filter the input, run the
tokenize/engine/detokenize pipeline (abstracted as `oracle`), and
filter the output.  The offline session keeps no history. -/
def OfflineTranslator.translate (oracle : String → String)
    (self : OfflineTranslator) (message : String) : String × OfflineTranslator :=
  if self.stop_translation then (pause_sentinel, self)
  else (process_output_text (oracle (process_input_text message)), self)

/-- OfflineTranslator.translate_batch: when paused, return the
one-element sentinel list; otherwise run the batch pipeline, which
yields one detokenized hypothesis per input (so the strict zip of the
logging pass cannot raise).  Batch inputs are not run through
`process_input_text` and batch outputs not through
`process_output_text`, matching the source. -/
def OfflineTranslator.translate_batch (oracle : String → String)
    (self : OfflineTranslator) (list_of_text_input : List String) :
    List String × OfflineTranslator :=
  if self.stop_translation then ([pause_sentinel], self)
  else (list_of_text_input.map oracle, self)

/-- OfflineTranslator.check_if_language_available. -/
def OfflineTranslator.check_if_language_available
    (self : OfflineTranslator) (language : String) : Bool :=
  (self.config.supported_languages.lookup language).isSome

/-- OfflineTranslator.change_output_language. -/
def OfflineTranslator.change_output_language
    (self : OfflineTranslator) (output_language : String) :
    String × OfflineTranslator :=
  if self.can_change_language_or_not then
    if self.check_if_language_available output_language then
      ("output language changed to " ++ output_language,
        { self with config := { self.config with output_language := output_language } })
    else (doesnt_have_msg, self)
  else (cant_change_msg, self)

/-- OfflineTranslator.change_input_language. -/
def OfflineTranslator.change_input_language
    (self : OfflineTranslator) (input_language : String) :
    String × OfflineTranslator :=
  if self.can_change_language_or_not then
    if self.check_if_language_available input_language then
      ("input language changed to " ++ input_language,
        { self with config := { self.config with input_language := input_language } })
    else (doesnt_have_msg, self)
  else (cant_change_msg, self)

/-- A command an offline session can receive over its lifetime. -/
inductive OfflineOp where
  | translateOp (message : String)
  | translateBatchOp (inputs : List String)
  | changeInputOp (language : String)
  | changeOutputOp (language : String)
  | pauseCmd
  | resumeCmd
  | activateCmd
deriving DecidableEq, Repr

/-- The offline session state after one command. -/
def OfflineTranslator.step (oracle : String → String)
    (self : OfflineTranslator) : OfflineOp → OfflineTranslator
  | .translateOp m => (OfflineTranslator.translate oracle self m).2
  | .translateBatchOp l => (OfflineTranslator.translate_batch oracle self l).2
  | .changeInputOp s => (OfflineTranslator.change_input_language self s).2
  | .changeOutputOp s => (OfflineTranslator.change_output_language self s).2
  | .pauseCmd => self.pauseOp
  | .resumeCmd => self.resumeOp
  | .activateCmd => self.activateOp

/-- The offline session state after a sequence of commands. -/
def OfflineTranslator.run (oracle : String → String)
    (self : OfflineTranslator) (ops : List OfflineOp) : OfflineTranslator :=
  ops.foldl (OfflineTranslator.step oracle) self

/-- TranslatorSettingsBase: the addressing fields shared by every
backend configuration, as read by the uniqueness validator. -/
structure TranslatorSettingsBase where
  enabled : Bool := true
  port : Option Int := none
  path : Option String := none
  input_language : String := "Japanese"
  output_language : String := "English"
  supported_languages : List (String × String) := []
deriving DecidableEq, Repr

/-- Every declared backend port followed by the root port, in the order
the validator collects them. -/
def portsOf (root_port : Int) (translators : List TranslatorSettingsBase) : List Int :=
  translators.filterMap (fun t => t.port) ++ [root_port]

/-- Every declared backend path, in order. -/
def pathsOf (translators : List TranslatorSettingsBase) : List String :=
  translators.filterMap (fun t => t.path)

/-- The distinct values occurring more than once in a list (the
`Counter` pass of the validator). -/
def duplicatesOf [DecidableEq α] (l : List α) : List α :=
  (l.filter fun a => decide (1 < l.count a)).dedup

/-- Insert into a list sorted by `le`. -/
def insertSorted (le : α → α → Bool) (a : α) : List α → List α
  | [] => [a]
  | b :: rest => if le a b then a :: b :: rest else b :: insertSorted le a rest

/-- Insertion sort by `le`, modelling Python `sorted`. -/
def sortBy (le : α → α → Bool) (l : List α) : List α :=
  l.foldr (insertSorted le) []

/-- Integer ordering used to sort duplicated ports. -/
def intLe (a b : Int) : Bool := decide (a ≤ b)

/-- String ordering used to sort duplicated paths. -/
def strLe (a b : String) : Bool := !(decide (b < a))

/-- The structured content of the `ValueError` the uniqueness validator
raises: either the sorted duplicated ports or the sorted duplicated
paths.  At most one of the two is ever reported by a single load. -/
inductive ConfigError where
  | dupPorts (ports : List Int)
  | dupPaths (paths : List String)
deriving DecidableEq, Repr

/-- The message text of the raised `ValueError`, following the
f-strings of the source. -/
def ConfigError.render : ConfigError → String
  | .dupPorts l =>
      "Duplicate plugin ports detected: [" ++
        String.intercalate ", " (l.map toString) ++ "]"
  | .dupPaths l =>
      "Duplicate plugin paths detected: [" ++
        String.intercalate ", " (l.map fun s => apos ++ s ++ apos) ++ "]"

/-- The duplicated paths named by an error (none for a port error). -/
def ConfigError.reportedPaths : ConfigError → List String
  | .dupPorts _ => []
  | .dupPaths l => l

/-- AppSettings.ensure_unique_handler_mapping: count every declared
port plus the root port and raise on any duplicate; only when the ports
are clean, count the declared paths and raise on any duplicate. -/
def ensure_unique_handler_mapping (root_port : Int)
    (translators : List TranslatorSettingsBase) : Except ConfigError Unit :=
  match duplicatesOf (portsOf root_port translators) with
  | [] =>
      match duplicatesOf (pathsOf translators) with
      | [] => Except.ok ()
      | d :: ds => Except.error (ConfigError.dupPaths (sortBy strLe (d :: ds)))
  | d :: ds => Except.error (ConfigError.dupPorts (sortBy intLe (d :: ds)))

/-- One entry of a pydantic `ValidationError`: the field location path
and the message. -/
structure ValidationItem where
  loc : List String
  msg : String
deriving DecidableEq, Repr

/-- The line `format_validation_error` prints for one violation. -/
def format_error_line (e : ValidationItem) : String :=
  "- " ++ String.intercalate " → " e.loc ++ ": " ++ e.msg

/-- The lines of `format_validation_error`: a header followed by one
line per violation in the error list. -/
def format_validation_error_lines (errs : List ValidationItem) : List String :=
  "Config validation failed:" :: errs.map format_error_line

/-- server entry point `format_validation_error`: the joined report. -/
def format_validation_error (errs : List ValidationItem) : String :=
  String.intercalate "\n" (format_validation_error_lines errs)

/-- The closed set of command kinds (`Command` StrEnum). -/
inductive Command where
  | close
  | ready
  | translate_sentences
  | translate_batch
  | change_input
  | change_output
  | pauseCmd
  | resumeCmd
deriving DecidableEq, Repr

/-- The wire string of each command kind, as declared by the StrEnum. -/
def Command.wire : Command → String
  | .close => "close server"
  | .ready => "check if server is ready"
  | .translate_sentences => "translate sentences"
  | .translate_batch => "translate batch"
  | .change_input => "change input language"
  | .change_output => "change output language"
  | .pauseCmd => "pause"
  | .resumeCmd => "resume"

/-- Parse the `message` field against the StrEnum values. -/
def parseCommand (s : String) : Option Command :=
  if s = "close server" then some Command.close
  else if s = "check if server is ready" then some Command.ready
  else if s = "translate sentences" then some Command.translate_sentences
  else if s = "translate batch" then some Command.translate_batch
  else if s = "change input language" then some Command.change_input
  else if s = "change output language" then some Command.change_output
  else if s = "pause" then some Command.pauseCmd
  else if s = "resume" then some Command.resumeCmd
  else none

/-- A JSON value of the request envelope `content` field. -/
inductive JValue where
  | null
  | bool (b : Bool)
  | int (n : Int)
  | str (s : String)
  | list (l : List JValue)
  | dict (d : List (String × JValue))

/-- Whether the content counts as absent for a no-content command
(`content not in (None, \x7b\x7d)`). -/
def JValue.isEmptyContent : JValue → Bool
  | .null => true
  | .dict [] => true
  | _ => false

/-- The `TypeAdapter(list[str])` check: every element is a string. -/
def asStringList : List JValue → Option (List String)
  | [] => some []
  | JValue.str s :: rest => (asStringList rest).map fun l => s :: l
  | _ => none

/-- A fully validated command payload, after both model validators. -/
inductive ValidPayload where
  | close
  | ready
  | translateOne (s : String)
  | translateBatch (l : List String)
  | changeInput (s : String)
  | changeOutput (s : String)
  | pauseCmd
  | resumeCmd
deriving DecidableEq, Repr

/-- CommandPayload validation: parse the command kind, run
`normalize_legacy_translate` (a `translate sentences` whose content is
a list is rewritten to `translate batch`), then run `validate_content`
(the per-kind content adapters; kinds without an adapter must carry no
content). -/
def validatePayload (message : String) (content : JValue) :
    Except String ValidPayload :=
  match parseCommand message with
  | none => Except.error "unknown command kind"
  | some cmd =>
      let cmd :=
        match cmd, content with
        | Command.translate_sentences, JValue.list _ => Command.translate_batch
        | c, _ => c
      match cmd with
      | Command.translate_sentences =>
          match content with
          | JValue.str s => Except.ok (ValidPayload.translateOne s)
          | _ => Except.error "content must be a string"
      | Command.translate_batch =>
          match content with
          | JValue.list l =>
              match asStringList l with
              | some strs => Except.ok (ValidPayload.translateBatch strs)
              | none => Except.error "content must be a list of strings"
          | _ => Except.error "content must be a list of strings"
      | Command.change_input =>
          match content with
          | JValue.str s => Except.ok (ValidPayload.changeInput s)
          | _ => Except.error "content must be a string"
      | Command.change_output =>
          match content with
          | JValue.str s => Except.ok (ValidPayload.changeOutput s)
          | _ => Except.error "content must be a string"
      | Command.close =>
          if content.isEmptyContent then Except.ok ValidPayload.close
          else Except.error "command must not provide content"
      | Command.ready =>
          if content.isEmptyContent then Except.ok ValidPayload.ready
          else Except.error "command must not provide content"
      | Command.pauseCmd =>
          if content.isEmptyContent then Except.ok ValidPayload.pauseCmd
          else Except.error "command must not provide content"
      | Command.resumeCmd =>
          if content.isEmptyContent then Except.ok ValidPayload.resumeCmd
          else Except.error "command must not provide content"

/-- The `Translator` capability interface consumed by the handler,
with the state type of the concrete backend session. -/
structure TranslatorOps (σ : Type) where
  is_ready : σ → Bool
  translate : σ → String → PyResult σ String
  translate_batch : σ → List String → PyResult σ (List String)
  change_input_language : σ → String → PyResult σ String
  change_output_language : σ → String → PyResult σ String
  pauseOp : σ → σ
  resumeOp : σ → σ

/-- The JSON-shaped response body the handler serializes. -/
inductive Response where
  | null
  | bool (b : Bool)
  | str (s : String)
  | strList (l : List String)
deriving DecidableEq, Repr

/-- LegacyTranslatorHandler.receive_command: dispatch the validated
payload to the bound translator and serialize the result (`close` is
intentionally ignored in the legacy scheme; `pause`/`resume` return
`None`, serialized as `null`). -/
def receiveCommand (ops : TranslatorOps σ) (st : σ) :
    ValidPayload → PyResult σ Response
  | .close => PyResult.ok Response.null st
  | .ready => PyResult.ok (Response.bool (ops.is_ready st)) st
  | .translateOne s => (ops.translate st s).map Response.str
  | .translateBatch l => (ops.translate_batch st l).map Response.strList
  | .changeInput s => (ops.change_input_language st s).map Response.str
  | .changeOutput s => (ops.change_output_language st s).map Response.str
  | .pauseCmd => PyResult.ok Response.null (ops.pauseOp st)
  | .resumeCmd => PyResult.ok Response.null (ops.resumeOp st)

/-- The capability record of an LLM session (the engine oracle stands
for the external litellm completion call). -/
def llmOps (oracle : List Message → String) : TranslatorOps LLMTranslator where
  is_ready := LLMTranslator.translator_ready_or_not
  translate := fun st s => LLMTranslator.translate oracle st s
  translate_batch := fun st l => LLMTranslator.translate_batch oracle st l
  change_input_language := fun st s =>
    LLMTranslator.change_input_language st s
  change_output_language := fun st s =>
    LLMTranslator.change_output_language st s
  pauseOp := LLMTranslator.pauseOp
  resumeOp := LLMTranslator.resumeOp

/-- The capability record of an offline session (the engine oracle
stands for the external tokenize/ctranslate2/detokenize pipeline). -/
def offlineOps (oracle : String → String) : TranslatorOps OfflineTranslator where
  is_ready := OfflineTranslator.translator_ready_or_not
  translate := fun st s =>
    let r := OfflineTranslator.translate oracle st s
    PyResult.ok r.1 r.2
  translate_batch := fun st l =>
    let r := OfflineTranslator.translate_batch oracle st l
    PyResult.ok r.1 r.2
  change_input_language := fun st s =>
    let r := OfflineTranslator.change_input_language st s
    PyResult.ok r.1 r.2
  change_output_language := fun st s =>
    let r := OfflineTranslator.change_output_language st s
    PyResult.ok r.1 r.2
  pauseOp := OfflineTranslator.pauseOp
  resumeOp := OfflineTranslator.resumeOp

/-- A stand-in engine oracle for LLM sessions in concrete scenarios. -/
def oracleNull : List Message → String := fun _ => ""

/-- A stand-in engine oracle for offline sessions in concrete scenarios. -/
def oracleStr : String → String := fun s => s

/-- A small concrete system-prompt template using both placeholders. -/
def tplW : Template :=
  [TemplatePart.lit "Translate ", TemplatePart.phInput,
   TemplatePart.lit " to ", TemplatePart.phOutput, TemplatePart.lit "."]

/-- A concrete LLM backend configuration for scenarios. -/
def cfgW : LLMTranslatorSettings :=
  { port := some 14368
    path := none
    input_language := "Japanese"
    output_language := "English"
    supported_languages :=
      [("English", "English"), ("Japanese", "Japanese"), ("Spanish", "Spanish")]
    system_prompt := tplW
    context_lines := 50 }

/-- The session state `LLMTranslator.init cfgW []` constructs. -/
def st0W : LLMTranslator :=
  { config := cfgW
    translator_ready_or_not := false
    can_change_language_or_not := true
    messages := [Message.mk "system" "Translate Japanese to English."]
    stop_translation := false
    system_prompt := "Translate Japanese to English."
    dictionary := [] }

/-- The configuration `cfgW` with a negative `context_lines`, which the
configuration schema does not rule out (the field is an unconstrained
integer). -/
def cfgNeg : LLMTranslatorSettings := { cfgW with context_lines := -1 }

/-- The session state `LLMTranslator.init cfgNeg []` constructs. -/
def st0Neg : LLMTranslator := { st0W with config := cfgNeg }

/-- A paused LLM session. -/
def pausedLLM : LLMTranslator := { st0W with stop_translation := true }

/-- A non-paused LLM session with a loaded term dictionary. -/
def dictLLM : LLMTranslator :=
  { st0W with dictionary := [("\u308a\u3093\u3054", "apple")] }

/-- A concrete offline backend configuration with the default supported
languages of the source (English and Japanese only). -/
def offCfgW : OfflineTranslatorSettings :=
  { port := some 14366
    path := none
    input_language := "Japanese"
    output_language := "English"
    supported_languages := [("English", "English"), ("Japanese", "Japanese")] }

/-- A freshly constructed offline session. -/
def offlineDflt : OfflineTranslator := OfflineTranslator.init offCfgW

/-- A paused offline session. -/
def pausedOffline : OfflineTranslator :=
  { offlineDflt with stop_translation := true }

/-- A backend configuration declaring port 14366 and no path. -/
def tlr14366 : TranslatorSettingsBase := { port := some (14366 : Int), path := none }

/-- A backend configuration declaring both port 14366 and path `/a`. -/
def tlrBoth : TranslatorSettingsBase :=
  { port := some (14366 : Int), path := some "/a" }


theorem translate_impl_raises (oracle : List Message → String)
    (self : LLMTranslator) (m : String) :
    LLMTranslator.translate_impl oracle self m =
      PyResult.raised PyError.typeError self := rfl

theorem translate_state_eq (oracle : List Message → String)
    (self : LLMTranslator) (m : String) :
    (LLMTranslator.translate oracle self m).stateOf = self := rfl

theorem translate_batch_state_eq (oracle : List Message → String)
    (self : LLMTranslator) (l : List String) :
    (LLMTranslator.translate_batch oracle self l).stateOf = self := by
  unfold LLMTranslator.translate_batch
  split
  · rfl
  · cases l with
    | nil => rfl
    | cons t ts =>
        simp only [LLMTranslator.translate_batch_loop, translate_impl_raises]
        rfl

theorem run_translation_eq (oracle : List Message → String)
    (self : LLMTranslator) (ops : List LLMOp)
    (h : ∀ op ∈ ops, op.isTranslation = true) :
    LLMTranslator.run oracle self ops = self := by
  induction ops generalizing self with
  | nil => rfl
  | cons op rest ih =>
      have hop := h op (by simp)
      have hrest : ∀ o ∈ rest, o.isTranslation = true := fun o ho => h o (by simp [ho])
      have hstep : LLMTranslator.step oracle self op = self := by
        cases op with
        | translateOp m => simpa [LLMTranslator.step] using translate_state_eq oracle self m
        | translateBatchOp l =>
            simpa [LLMTranslator.step] using translate_batch_state_eq oracle self l
        | changeInputOp s => simp [LLMOp.isTranslation] at hop
        | changeOutputOp s => simp [LLMOp.isTranslation] at hop
        | pauseCmd => simp [LLMOp.isTranslation] at hop
        | resumeCmd => simp [LLMOp.isTranslation] at hop
        | activateCmd => simp [LLMOp.isTranslation] at hop
      show LLMTranslator.run oracle (LLMTranslator.step oracle self op) rest = self
      rw [hstep]
      exact ih self hrest

theorem process_system_prompt_of_ok (self : LLMTranslator) (r : String)
    (hf : pyFormat (subsFor self.config.system_prompt
        self.config.input_language self.config.output_language)
        self.config.system_prompt = Except.ok r) :
    self.process_system_prompt =
      PyResult.ok () { self with
        system_prompt := r,
        messages := [Message.mk "system" r] } := by
  unfold LLMTranslator.process_system_prompt
  simp only [hf]

theorem process_system_prompt_of_error (self : LLMTranslator) (e : PyError)
    (hf : pyFormat (subsFor self.config.system_prompt
        self.config.input_language self.config.output_language)
        self.config.system_prompt = Except.error e) :
    self.process_system_prompt =
      PyResult.raised e { self with messages := [] } := by
  unfold LLMTranslator.process_system_prompt
  simp only [hf]

theorem process_system_prompt_state_config (self : LLMTranslator) :
    (self.process_system_prompt).stateOf.config = self.config ∧
    (self.process_system_prompt).stateOf.can_change_language_or_not =
      self.can_change_language_or_not ∧
    (self.process_system_prompt).stateOf.stop_translation = self.stop_translation ∧
    (self.process_system_prompt).stateOf.dictionary = self.dictionary := by
  unfold LLMTranslator.process_system_prompt
  rcases hf : pyFormat (subsFor self.config.system_prompt
      self.config.input_language self.config.output_language)
      self.config.system_prompt with e | r <;>
    simp [hf, PyResult.stateOf]

theorem pyFormat_ok_of_covered (subs : List (String × String)) (tpl : Template)
    (h : ∀ p ∈ tpl, ∀ n, placeholderName p = some n →
        (subs.lookup n).isSome = true) :
    ∃ s, pyFormat subs tpl = Except.ok s := by
  induction tpl with
  | nil => exact ⟨"", rfl⟩
  | cons p rest ih =>
      obtain ⟨sr, hrest⟩ := ih fun q hq n hn => h q (by simp [hq]) n hn
      have hp : ∃ sp, renderPart subs p = Except.ok sp := by
        cases p with
        | lit s => exact ⟨s, rfl⟩
        | phInput =>
            have := h TemplatePart.phInput (by simp) "input_language" rfl
            rcases hl : subs.lookup "input_language" with _ | v
            · rw [hl] at this; simp at this
            · exact ⟨v, by simp [renderPart, hl]⟩
        | phOutput =>
            have := h TemplatePart.phOutput (by simp) "output_language" rfl
            rcases hl : subs.lookup "output_language" with _ | v
            · rw [hl] at this; simp at this
            · exact ⟨v, by simp [renderPart, hl]⟩
        | phOther name =>
            have := h (TemplatePart.phOther name) (by simp) name rfl
            rcases hl : subs.lookup name with _ | v
            · rw [hl] at this; simp at this
            · exact ⟨v, by simp [renderPart, hl]⟩
      obtain ⟨sp, hpart⟩ := hp
      exact ⟨sp ++ sr, by simp [pyFormat, hpart, hrest]⟩

theorem hasPlaceholder_of_mem (tpl : Template) (p : TemplatePart) (n : String)
    (hp : p ∈ tpl) (hn : placeholderName p = some n) :
    tpl.hasPlaceholder n = true := by
  unfold Template.hasPlaceholder
  rw [List.any_eq_true]
  exact ⟨p, hp, by simp [hn]⟩

theorem lookup_subsFor_input (tpl : Template) (i o : String)
    (h : tpl.hasPlaceholder "input_language" = true) :
    (subsFor tpl i o).lookup "input_language" = some i := by
  unfold subsFor
  rw [h]
  simp [List.lookup]

theorem lookup_subsFor_output (tpl : Template) (i o : String)
    (h : tpl.hasPlaceholder "output_language" = true) :
    (subsFor tpl i o).lookup "output_language" = some o := by
  unfold subsFor
  rw [h]
  by_cases h1 : tpl.hasPlaceholder "input_language" <;> simp [h1, List.lookup]

theorem render_ok_of_templateOk (tpl : Template) (i o : String)
    (h : TemplateOk tpl = true) :
    ∃ s, pyFormat (subsFor tpl i o) tpl = Except.ok s := by
  apply pyFormat_ok_of_covered
  intro p hp n hn
  have hok := (List.all_eq_true.mp h) p hp
  rw [hn] at hok
  rcases Bool.or_eq_true_iff.mp hok with hA | hB
  · have hne : n = "input_language" := by simpa using hA
    subst hne
    rw [lookup_subsFor_input tpl i o (hasPlaceholder_of_mem tpl p _ hp hn)]
    rfl
  · have hne : n = "output_language" := by simpa using hB
    subst hne
    rw [lookup_subsFor_output tpl i o (hasPlaceholder_of_mem tpl p _ hp hn)]
    rfl

theorem lookup_isSome_mem_keys (l : List (String × String)) (n : String)
    (h : (l.lookup n).isSome = true) : n ∈ l.map Prod.fst := by
  induction l with
  | nil => simp [List.lookup] at h
  | cons kv rest ih =>
      rcases kv with ⟨k, v⟩
      by_cases hk : n == k
      · simp [List.mem_map]
        exact Or.inl (eq_of_beq hk)
      · have hk2 : (n == k) = false := by simpa using hk
        simp [List.lookup, hk2] at h
        obtain ⟨v2, hv⟩ := h
        rw [List.map_cons, List.mem_cons]
        exact Or.inr (List.mem_map.mpr ⟨(n, v2), hv, rfl⟩)

theorem lookup_subsFor_isSome (tpl : Template) (i o n : String)
    (h : ((subsFor tpl i o).lookup n).isSome = true) :
    n = "input_language" ∨ n = "output_language" := by
  have hmem := lookup_isSome_mem_keys _ _ h
  unfold subsFor at hmem
  by_cases h1 : tpl.hasPlaceholder "input_language" <;>
    by_cases h2 : tpl.hasPlaceholder "output_language" <;>
      simp [h1, h2] at hmem <;> tauto

theorem templateOk_of_render_ok (subs : List (String × String)) (tpl : Template)
    (hkeys : ∀ n, (subs.lookup n).isSome = true →
        n = "input_language" ∨ n = "output_language")
    (s : String) (h : pyFormat subs tpl = Except.ok s) :
    TemplateOk tpl = true := by
  induction tpl generalizing s with
  | nil => rfl
  | cons p rest ih =>
      cases hr : renderPart subs p with
      | error e => simp [pyFormat, hr] at h
      | ok sp =>
          cases hrest : pyFormat subs rest with
          | error e => simp [pyFormat, hr, hrest] at h
          | ok sr =>
              have hTr := ih sr hrest
              have hp : (match placeholderName p with
                  | none => true
                  | some n => n == "input_language" || n == "output_language") = true := by
                cases p with
                | lit s => rfl
                | phInput => rfl
                | phOutput => rfl
                | phOther name =>
                    simp only [placeholderName]
                    rcases hl : subs.lookup name with _ | v
                    · rw [renderPart, hl] at hr; cases hr
                    · have := hkeys name (by simp [hl])
                      rcases this with hA | hB
                      · simp [hA]
                      · simp [hB]
              unfold TemplateOk
              rw [List.all_cons]
              rw [Bool.and_eq_true]
              exact ⟨hp, hTr⟩

theorem templateOk_of_init_ok (config : LLMTranslatorSettings)
    (dictionary : List (String × String)) (st : LLMTranslator)
    (h : LLMTranslator.init config dictionary = PyResult.ok () st) :
    TemplateOk config.system_prompt = true := by
  rcases hf : pyFormat (subsFor config.system_prompt
      config.input_language config.output_language) config.system_prompt with e | r
  · simp [LLMTranslator.init, LLMTranslator.process_system_prompt, hf] at h
  · exact templateOk_of_render_ok _ _
      (fun n hn => lookup_subsFor_isSome _ _ _ _ hn) r hf

theorem change_input_state_fields (self : LLMTranslator) (s : String) :
    (LLMTranslator.change_input_language self s).stateOf.config.system_prompt
        = self.config.system_prompt ∧
    (LLMTranslator.change_input_language self s).stateOf.can_change_language_or_not
        = self.can_change_language_or_not := by
  unfold LLMTranslator.change_input_language
  by_cases hc : self.can_change_language_or_not
  · rw [if_pos hc]
    by_cases ha : self.check_if_language_available s
    · rw [if_pos ha]
      have h := process_system_prompt_state_config
        { self with config := { self.config with input_language := s } }
      rcases hps : ({ self with config :=
          { self.config with input_language := s } } : LLMTranslator).process_system_prompt
        with ⟨v, st⟩ | ⟨e, st⟩ <;>
      · rw [hps] at h
        simp only [PyResult.stateOf] at h
        simp only [hps, PyResult.stateOf, h.1, h.2.1]
        exact ⟨trivial, trivial⟩
    · rw [if_neg ha]
      exact ⟨rfl, rfl⟩
  · rw [if_neg hc]
    exact ⟨rfl, rfl⟩

theorem change_output_state_fields (self : LLMTranslator) (s : String) :
    (LLMTranslator.change_output_language self s).stateOf.config.system_prompt
        = self.config.system_prompt ∧
    (LLMTranslator.change_output_language self s).stateOf.can_change_language_or_not
        = self.can_change_language_or_not := by
  unfold LLMTranslator.change_output_language
  by_cases hc : self.can_change_language_or_not
  · rw [if_pos hc]
    by_cases ha : self.check_if_language_available s
    · rw [if_pos ha]
      have h := process_system_prompt_state_config
        { self with config := { self.config with output_language := s } }
      rcases hps : ({ self with config :=
          { self.config with output_language := s } } : LLMTranslator).process_system_prompt
        with ⟨v, st⟩ | ⟨e, st⟩ <;>
      · rw [hps] at h
        simp only [PyResult.stateOf] at h
        simp only [hps, PyResult.stateOf, h.1, h.2.1]
        exact ⟨trivial, trivial⟩
    · rw [if_neg ha]
      exact ⟨rfl, rfl⟩
  · rw [if_neg hc]
    exact ⟨rfl, rfl⟩

theorem step_preserves_prompt_flag (oracle : List Message → String)
    (self : LLMTranslator) (op : LLMOp) :
    (LLMTranslator.step oracle self op).config.system_prompt
        = self.config.system_prompt ∧
    (LLMTranslator.step oracle self op).can_change_language_or_not
        = self.can_change_language_or_not := by
  cases op with
  | translateOp m =>
      simp [LLMTranslator.step, translate_state_eq]
  | translateBatchOp l =>
      simp [LLMTranslator.step, translate_batch_state_eq]
  | changeInputOp s => exact change_input_state_fields self s
  | changeOutputOp s => exact change_output_state_fields self s
  | pauseCmd => exact ⟨rfl, rfl⟩
  | resumeCmd => exact ⟨rfl, rfl⟩
  | activateCmd => exact ⟨rfl, rfl⟩

theorem run_preserves_prompt_flag (oracle : List Message → String)
    (self : LLMTranslator) (ops : List LLMOp) :
    (LLMTranslator.run oracle self ops).config.system_prompt
        = self.config.system_prompt ∧
    (LLMTranslator.run oracle self ops).can_change_language_or_not
        = self.can_change_language_or_not := by
  induction ops generalizing self with
  | nil => exact ⟨rfl, rfl⟩
  | cons op rest ih =>
      have hstep := step_preserves_prompt_flag oracle self op
      have hrest := ih (LLMTranslator.step oracle self op)
      exact ⟨hrest.1.trans hstep.1, hrest.2.trans hstep.2⟩

theorem init_eq_of_render_ok (config : LLMTranslatorSettings)
    (dictionary : List (String × String)) (r : String)
    (hf : pyFormat (subsFor config.system_prompt
        config.input_language config.output_language)
        config.system_prompt = Except.ok r) :
    LLMTranslator.init config dictionary =
      PyResult.ok () {
        config := config
        translator_ready_or_not := false
        can_change_language_or_not := true
        messages := [Message.mk "system" r]
        stop_translation := false
        system_prompt := r
        dictionary := dictionary } :=
  process_system_prompt_of_ok {
      config := config
      translator_ready_or_not := false
      can_change_language_or_not := true
      messages := []
      stop_translation := false
      system_prompt := ""
      dictionary := dictionary } r hf

theorem init_ok_shape (config : LLMTranslatorSettings)
    (dictionary : List (String × String)) (st : LLMTranslator)
    (h : LLMTranslator.init config dictionary = PyResult.ok () st) :
    st.config = config ∧ st.can_change_language_or_not = true ∧
    st.stop_translation = false ∧ st.dictionary = dictionary ∧
    st.messages = [Message.mk "system" st.system_prompt] := by
  rcases hf : pyFormat (subsFor config.system_prompt
      config.input_language config.output_language) config.system_prompt with e | r
  · simp [LLMTranslator.init, LLMTranslator.process_system_prompt, hf] at h
  · rw [init_eq_of_render_ok config dictionary r hf] at h
    injection h with h1 h2
    subst h2
    exact ⟨rfl, rfl, rfl, rfl, rfl⟩

theorem change_output_success (self : LLMTranslator) (lang : String)
    (hc : self.can_change_language_or_not = true)
    (ha : self.check_if_language_available lang = true)
    (hok : TemplateOk self.config.system_prompt = true) :
    ∃ rendered,
      pyFormat (subsFor self.config.system_prompt self.config.input_language lang)
          self.config.system_prompt = Except.ok rendered ∧
      LLMTranslator.change_output_language self lang =
        PyResult.ok ("output language changed to " ++ lang)
          { self with
            config := { self.config with output_language := lang },
            system_prompt := rendered,
            messages := [Message.mk "system" rendered] } := by
  obtain ⟨r, hr⟩ := render_ok_of_templateOk self.config.system_prompt
    self.config.input_language lang hok
  refine ⟨r, hr, ?_⟩
  unfold LLMTranslator.change_output_language
  rw [if_pos hc, if_pos ha]
  simp only [process_system_prompt_of_ok
    { self with config := { self.config with output_language := lang } } r hr]

theorem change_input_success (self : LLMTranslator) (lang : String)
    (hc : self.can_change_language_or_not = true)
    (ha : self.check_if_language_available lang = true)
    (hok : TemplateOk self.config.system_prompt = true) :
    ∃ rendered,
      pyFormat (subsFor self.config.system_prompt lang self.config.output_language)
          self.config.system_prompt = Except.ok rendered ∧
      LLMTranslator.change_input_language self lang =
        PyResult.ok ("input language changed to " ++ lang)
          { self with
            config := { self.config with input_language := lang },
            system_prompt := rendered,
            messages := [Message.mk "system" rendered] } := by
  obtain ⟨r, hr⟩ := render_ok_of_templateOk self.config.system_prompt
    lang self.config.output_language hok
  refine ⟨r, hr, ?_⟩
  unfold LLMTranslator.change_input_language
  rw [if_pos hc, if_pos ha]
  simp only [process_system_prompt_of_ok
    { self with config := { self.config with input_language := lang } } r hr]

theorem mem_insertSorted (le : α → α → Bool) (a x : α) (l : List α) :
    a ∈ insertSorted le x l ↔ a = x ∨ a ∈ l := by
  induction l with
  | nil => simp [insertSorted]
  | cons b rest ih =>
      unfold insertSorted
      by_cases hle : le x b
      · simp [hle]
      · simp [hle, ih]
        tauto

theorem mem_sortBy (le : α → α → Bool) (a : α) (l : List α) :
    a ∈ sortBy le l ↔ a ∈ l := by
  induction l with
  | nil => simp [sortBy]
  | cons b rest ih =>
      unfold sortBy at ih ⊢
      rw [List.foldr_cons, mem_insertSorted, ih, List.mem_cons]

theorem mem_duplicatesOf [DecidableEq α] (a : α) (l : List α) :
    a ∈ duplicatesOf l ↔ 2 ≤ l.count a := by
  unfold duplicatesOf
  rw [List.mem_dedup, List.mem_filter]
  constructor
  · intro ⟨_, h2⟩
    have := of_decide_eq_true h2
    omega
  · intro h
    refine ⟨List.count_pos_iff.mp (by omega), decide_eq_true (by omega)⟩

theorem duplicatesOf_eq_nil [DecidableEq α] (l : List α) :
    duplicatesOf l = [] ↔ l.Nodup := by
  unfold duplicatesOf
  rw [List.dedup_eq_nil, List.filter_eq_nil_iff, List.nodup_iff_count_le_one]
  constructor
  · intro h a
    by_cases ha : a ∈ l
    · have := h a ha
      have := of_decide_eq_true (p := 1 < l.count a)
      by_contra hc
      exact (h a ha) (decide_eq_true (by omega))
    · simp [List.count_eq_zero_of_not_mem ha]
  · intro h a _ hc
    have := of_decide_eq_true hc
    have := h a
    omega

theorem offline_step_can_change (oracle : String → String)
    (self : OfflineTranslator) (op : OfflineOp) :
    (OfflineTranslator.step oracle self op).can_change_language_or_not
      = self.can_change_language_or_not := by
  cases op with
  | translateOp m =>
      simp only [OfflineTranslator.step, OfflineTranslator.translate]
      split <;> rfl
  | translateBatchOp l =>
      simp only [OfflineTranslator.step, OfflineTranslator.translate_batch]
      split <;> rfl
  | changeInputOp s =>
      simp only [OfflineTranslator.step, OfflineTranslator.change_input_language]
      split
      · split <;> rfl
      · rfl
  | changeOutputOp s =>
      simp only [OfflineTranslator.step, OfflineTranslator.change_output_language]
      split
      · split <;> rfl
      · rfl
  | pauseCmd => rfl
  | resumeCmd => rfl
  | activateCmd => rfl

theorem offline_run_can_change (oracle : String → String)
    (self : OfflineTranslator) (ops : List OfflineOp) :
    (OfflineTranslator.run oracle self ops).can_change_language_or_not
      = self.can_change_language_or_not := by
  induction ops generalizing self with
  | nil => rfl
  | cons op rest ih =>
      exact (ih (OfflineTranslator.step oracle self op)).trans
        (offline_step_can_change oracle self op)

/-- C1: a configuration passes `ensure_unique_handler_mapping` exactly when
every declared backend port together with `root_port` is pairwise distinct
and every declared backend path is pairwise distinct; a port declared twice
(or colliding with `root_port`) makes loading fail with a duplicate-port
error naming that port, and, with ports clean, a path declared twice makes
loading fail with a duplicate-path error naming that path. -/
theorem ensure_unique_handler_mapping_correct (root_port : Int)
    (translators : List TranslatorSettingsBase) :
    (ensure_unique_handler_mapping root_port translators = Except.ok () ↔
      (portsOf root_port translators).Nodup ∧ (pathsOf translators).Nodup)
    ∧ (∀ p : Int, 2 ≤ (portsOf root_port translators).count p →
        ∃ l, ensure_unique_handler_mapping root_port translators
            = Except.error (ConfigError.dupPorts l) ∧ p ∈ l)
    ∧ (∀ q : String, (portsOf root_port translators).Nodup →
        2 ≤ (pathsOf translators).count q →
        ∃ l, ensure_unique_handler_mapping root_port translators
            = Except.error (ConfigError.dupPaths l) ∧ q ∈ l) := by
  refine ⟨⟨?_, ?_⟩, ?_, ?_⟩
  · intro h
    unfold ensure_unique_handler_mapping at h
    rcases hd : duplicatesOf (portsOf root_port translators) with _ | ⟨d, ds⟩
    · rcases hd2 : duplicatesOf (pathsOf translators) with _ | ⟨d2, ds2⟩
      · exact ⟨(duplicatesOf_eq_nil _).mp hd, (duplicatesOf_eq_nil _).mp hd2⟩
      · rw [hd, hd2] at h; cases h
    · rw [hd] at h; cases h
  · intro ⟨h1, h2⟩
    unfold ensure_unique_handler_mapping
    rw [(duplicatesOf_eq_nil _).mpr h1, (duplicatesOf_eq_nil _).mpr h2]
  · intro p hp
    have hmem : p ∈ duplicatesOf (portsOf root_port translators) :=
      (mem_duplicatesOf _ _).mpr hp
    rcases hd : duplicatesOf (portsOf root_port translators) with _ | ⟨d, ds⟩
    · rw [hd] at hmem; cases hmem
    · refine ⟨sortBy intLe (d :: ds), ?_, ?_⟩
      · unfold ensure_unique_handler_mapping
        rw [hd]
      · rw [mem_sortBy]
        rw [hd] at hmem
        exact hmem
  · intro q h1 hq
    have hdp := (duplicatesOf_eq_nil (portsOf root_port translators)).mpr h1
    have hmem : q ∈ duplicatesOf (pathsOf translators) :=
      (mem_duplicatesOf _ _).mpr hq
    rcases hd2 : duplicatesOf (pathsOf translators) with _ | ⟨d2, ds2⟩
    · rw [hd2] at hmem; cases hmem
    · refine ⟨sortBy strLe (d2 :: ds2), ?_, ?_⟩
      · unfold ensure_unique_handler_mapping
        rw [hdp, hd2]
      · rw [mem_sortBy]
        rw [hd2] at hmem
        exact hmem

/-- Witness for C1: two backends both declaring port 14366 (root port
8000) are rejected with a duplicate-port error naming 14366, whose
rendered message is the ValueError text of the source. -/
theorem duplicate_port_14366_rejected :
    (∃ l, ensure_unique_handler_mapping 8000 [tlr14366, tlr14366]
        = Except.error (ConfigError.dupPorts l) ∧ (14366 : Int) ∈ l)
    ∧ (ConfigError.dupPorts [14366]).render
        = "Duplicate plugin ports detected: [14366]" :=
  ⟨(ensure_unique_handler_mapping_correct 8000 [tlr14366, tlr14366]).2.1
      14366 (by decide),
   by decide⟩

/-- Counterexample for C7: a configuration carrying both a duplicate port
(14366 twice) and a duplicate path (`/a` twice) fails reporting only the
duplicate ports; the reported error names no path at all, so the claim that
both violations are reported is false. -/
theorem dup_port_masks_dup_path :
    2 ≤ (pathsOf [tlrBoth, tlrBoth]).count "/a"
    ∧ ensure_unique_handler_mapping 8000 [tlrBoth, tlrBoth]
        = Except.error (ConfigError.dupPorts [14366])
    ∧ (ConfigError.dupPorts [14366]).reportedPaths = [] := by
  refine ⟨by decide, by decide, rfl⟩

/-- C7 (amended): every violation of the kind being raised is enumerated —
a duplicate-port error lists exactly the multiply-declared port values and a
duplicate-path error exactly the multiply-declared path values — and
`format_validation_error` prints one line per violation it receives; but a
duplicate-port violation preempts duplicate-path reporting, so a
configuration with both reports only the duplicated ports. -/
theorem validation_error_enumeration :
    (∀ (root_port : Int) (translators : List TranslatorSettingsBase) (p : Int),
      2 ≤ (portsOf root_port translators).count p →
      ∃ l, ensure_unique_handler_mapping root_port translators
          = Except.error (ConfigError.dupPorts l)
        ∧ ∀ q : Int, q ∈ l ↔ 2 ≤ (portsOf root_port translators).count q)
    ∧ (∀ (root_port : Int) (translators : List TranslatorSettingsBase) (q : String),
      (portsOf root_port translators).Nodup →
      2 ≤ (pathsOf translators).count q →
      ∃ l, ensure_unique_handler_mapping root_port translators
          = Except.error (ConfigError.dupPaths l)
        ∧ ∀ r : String, r ∈ l ↔ 2 ≤ (pathsOf translators).count r)
    ∧ (∀ errs : List ValidationItem,
      (format_validation_error_lines errs).length = errs.length + 1
      ∧ ∀ e ∈ errs, format_error_line e ∈ format_validation_error_lines errs) := by
  refine ⟨?_, ?_, ?_⟩
  · intro root_port translators p hp
    have hmem : p ∈ duplicatesOf (portsOf root_port translators) :=
      (mem_duplicatesOf _ _).mpr hp
    rcases hd : duplicatesOf (portsOf root_port translators) with _ | ⟨d, ds⟩
    · rw [hd] at hmem; cases hmem
    · refine ⟨sortBy intLe (d :: ds), ?_, ?_⟩
      · unfold ensure_unique_handler_mapping
        rw [hd]
      · intro q
        rw [mem_sortBy, ← hd, mem_duplicatesOf]
  · intro root_port translators q h1 hq
    have hdp := (duplicatesOf_eq_nil (portsOf root_port translators)).mpr h1
    have hmem : q ∈ duplicatesOf (pathsOf translators) :=
      (mem_duplicatesOf _ _).mpr hq
    rcases hd2 : duplicatesOf (pathsOf translators) with _ | ⟨d2, ds2⟩
    · rw [hd2] at hmem; cases hmem
    · refine ⟨sortBy strLe (d2 :: ds2), ?_, ?_⟩
      · unfold ensure_unique_handler_mapping
        rw [hdp, hd2]
      · intro r
        rw [mem_sortBy, ← hd2, mem_duplicatesOf]
  · intro errs
    refine ⟨by simp [format_validation_error_lines], ?_⟩
    intro e he
    unfold format_validation_error_lines
    exact List.mem_cons_of_mem _ (List.mem_map_of_mem format_error_line he)

/-- Witness for C7 (amended): at the dual-violation configuration the
reported error enumerates exactly the duplicated ports. -/
theorem validation_error_enumeration_witness :
    ∃ l, ensure_unique_handler_mapping 8000 [tlrBoth, tlrBoth]
        = Except.error (ConfigError.dupPorts l)
      ∧ ∀ q : Int, q ∈ l ↔ 2 ≤ (portsOf 8000 [tlrBoth, tlrBoth]).count q :=
  validation_error_enumeration.1 8000 [tlrBoth, tlrBoth] 14366 (by decide)

/-- Counterexample for C2: the configuration schema places no lower bound
on `context_lines`, and with `context_lines = -1` a session that completes
one `translate_batch []` call normally is left with its one-entry history
strictly exceeding the claimed bound of `context_lines + 1 = 0` entries. -/
theorem context_window_bound_fails_for_negative_context_lines :
    LLMTranslator.init cfgNeg [] = PyResult.ok () st0Neg
    ∧ LLMTranslator.translate_batch oracleNull st0Neg []
        = PyResult.ok [] st0Neg
    ∧ ¬ (((LLMTranslator.run oracleNull st0Neg
          [LLMOp.translateBatchOp []]).messages.length : Int)
        ≤ cfgNeg.context_lines + 1) := by
  refine ⟨by decide, by decide, by decide⟩

/-- C2 (amended): for every LLM session constructed successfully from a
configuration with non-negative `context_lines`, after each call of any
sequence of `translate`/`translate_batch` commands the `messages` history
holds at most `context_lines + 1` entries and its first entry is the
current system entry (so the system entry is never dropped). -/
theorem context_window_bound_nonneg (oracle : List Message → String)
    (config : LLMTranslatorSettings) (dictionary : List (String × String))
    (st0 : LLMTranslator) (ops : List LLMOp) (n : ℕ)
    (hinit : LLMTranslator.init config dictionary = PyResult.ok () st0)
    (hL : 0 ≤ config.context_lines)
    (hops : ∀ op ∈ ops, op.isTranslation = true) :
    ((LLMTranslator.run oracle st0 (ops.take n)).messages.length : Int)
        ≤ config.context_lines + 1
    ∧ (LLMTranslator.run oracle st0 (ops.take n)).messages.headI
        = Message.mk "system"
            (LLMTranslator.run oracle st0 (ops.take n)).system_prompt := by
  have hr : LLMTranslator.run oracle st0 (ops.take n) = st0 :=
    run_translation_eq oracle st0 (ops.take n)
      (fun op hop => hops op (List.mem_of_mem_take hop))
  obtain ⟨_, _, _, _, hm⟩ := init_ok_shape config dictionary st0 hinit
  rw [hr, hm]
  refine ⟨?_, rfl⟩
  simp only [List.length_cons, List.length_nil]
  omega

/-- Witness for C2 (amended): the bound instantiated at a concrete session
with `context_lines = 50` after one `translate` call. -/
theorem context_window_bound_nonneg_witness :
    ((LLMTranslator.run oracleNull st0W
        ([LLMOp.translateOp "hello"].take 1)).messages.length : Int)
      ≤ cfgW.context_lines + 1
    ∧ (LLMTranslator.run oracleNull st0W
        ([LLMOp.translateOp "hello"].take 1)).messages.headI
      = Message.mk "system"
          (LLMTranslator.run oracleNull st0W
            ([LLMOp.translateOp "hello"].take 1)).system_prompt :=
  context_window_bound_nonneg oracleNull cfgW [] st0W
    [LLMOp.translateOp "hello"] 1 (by decide) (by decide) (by decide)

/-- C3 (code bug): on a paused LLM session, `translate` does not return the
pause sentinel: the first statement of `_translate` calls
`plugins.process_input_text(message, self.dictionary)` with two positional
arguments although the callee is declared with one, so `TypeError` is
raised before the pause check is ever reached (the history is left
unchanged, but no sentinel is produced).  The offline backend, which checks
the pause flag first, does return the sentinel with its state unchanged. -/
theorem paused_translate_raises_type_error :
    pausedLLM.stop_translation = true
    ∧ LLMTranslator.translate oracleNull pausedLLM "anything"
        = PyResult.raised PyError.typeError pausedLLM
    ∧ pausedOffline.stop_translation = true
    ∧ OfflineTranslator.translate oracleStr pausedOffline "anything"
        = (pause_sentinel, pausedOffline) := by
  refine ⟨rfl, by decide, rfl, by decide⟩

/-- C8 (code bug): on a non-paused LLM session with a loaded term
dictionary, `translate` performs no dictionary substitution and returns no
translation: `llm.py` passes the dictionary as a second positional argument
to `plugins.process_input_text`, whose declaration takes a single
parameter, so every call raises `TypeError`; the one-argument call that the
helper does accept performs no dictionary lookup at all. -/
theorem dictionary_substitution_type_error :
    dictLLM.stop_translation = false
    ∧ dictLLM.dictionary ≠ []
    ∧ LLMTranslator.translate oracleNull dictLLM "some text"
        = PyResult.raised PyError.typeError dictLLM
    ∧ callProcessInputText [PyArg.str "some text", PyArg.dict dictLLM.dictionary]
        = Except.error PyError.typeError
    ∧ callProcessInputText [PyArg.str "some text"] = Except.ok "some text" := by
  refine ⟨rfl, by decide, by decide, by decide, by decide⟩

/-- C9: an offline session rejects every language change with the fixed
"this translator can't change languages" string and an unchanged state, in
every state reachable from construction and for every requested language,
supported or not: the backend declares language changes unsupported at
construction and nothing ever re-enables them. -/
theorem offline_cannot_change_languages (oracle : String → String)
    (config : OfflineTranslatorSettings) (ops : List OfflineOp) (lang : String) :
    OfflineTranslator.change_output_language
        (OfflineTranslator.run oracle (OfflineTranslator.init config) ops) lang
      = (cant_change_msg,
          OfflineTranslator.run oracle (OfflineTranslator.init config) ops)
    ∧ OfflineTranslator.change_input_language
        (OfflineTranslator.run oracle (OfflineTranslator.init config) ops) lang
      = (cant_change_msg,
          OfflineTranslator.run oracle (OfflineTranslator.init config) ops) := by
  have hc : (OfflineTranslator.run oracle (OfflineTranslator.init config)
      ops).can_change_language_or_not = false :=
    offline_run_can_change oracle (OfflineTranslator.init config) ops
  constructor
  · simp [OfflineTranslator.change_output_language, hc]
  · simp [OfflineTranslator.change_input_language, hc]

/-- C10: on a paused session, `translate_batch` returns the one-element
pause-sentinel list for every input list, including the empty list, on both
backends; hence whenever the input length differs from one, the output
length differs from the input length. -/
theorem paused_batch_returns_singleton (oracle : List Message → String)
    (oracle2 : String → String) (llm : LLMTranslator)
    (off : OfflineTranslator) (inputs : List String)
    (h1 : llm.stop_translation = true) (h2 : off.stop_translation = true) :
    LLMTranslator.translate_batch oracle llm inputs
        = PyResult.ok [pause_sentinel] llm
    ∧ OfflineTranslator.translate_batch oracle2 off inputs
        = ([pause_sentinel], off)
    ∧ ([pause_sentinel] : List String).length = 1
    ∧ (inputs.length ≠ 1 →
        ([pause_sentinel] : List String).length ≠ inputs.length) := by
  refine ⟨?_, ?_, rfl, ?_⟩
  · simp [LLMTranslator.translate_batch, h1]
  · simp [OfflineTranslator.translate_batch, h2]
  · intro h
    simpa using fun hc => h hc.symm

/-- Witness for C10: a paused LLM session and a paused offline session on
the two-element input list. -/
theorem paused_batch_returns_singleton_witness :
    LLMTranslator.translate_batch oracleNull pausedLLM ["a", "b"]
        = PyResult.ok [pause_sentinel] pausedLLM
    ∧ OfflineTranslator.translate_batch oracleStr pausedOffline ["a", "b"]
        = ([pause_sentinel], pausedOffline)
    ∧ ([pause_sentinel] : List String).length = 1
    ∧ ((["a", "b"] : List String).length ≠ 1 →
        ([pause_sentinel] : List String).length
          ≠ (["a", "b"] : List String).length) :=
  paused_batch_returns_singleton oracleNull oracleStr pausedLLM pausedOffline
    ["a", "b"] (by decide) (by decide)

/-- Counterexample for C6: on an offline session whose supported languages
lack Spanish, `change_output_language("Spanish")` returns the
"can't change languages" string, not the claimed "doesn't have this
language" string (the language check is never reached because offline
backends disable language changes at construction). -/
theorem offline_unsupported_language_message_differs :
    (offlineDflt.config.supported_languages.lookup "Spanish").isSome = false
    ∧ (OfflineTranslator.change_output_language offlineDflt "Spanish").1
        = cant_change_msg
    ∧ (OfflineTranslator.change_output_language offlineDflt "Spanish").1
        ≠ doesnt_have_msg := by
  refine ⟨by decide, by decide, by decide⟩

/-- C6 (amended): a language change whose target is absent from the
session's `supported_languages` returns a fixed soft rejection string and
leaves the session state — languages and history — entirely unchanged; the
string is the "doesn't have this language" message when the backend permits
language changes and the "can't change languages" message when it does not
(the latter is what every offline session answers). -/
theorem unsupported_language_soft_reject (llm : LLMTranslator)
    (off : OfflineTranslator) (lang : String)
    (h1 : (llm.config.supported_languages.lookup lang).isSome = false)
    (h2 : (off.config.supported_languages.lookup lang).isSome = false) :
    LLMTranslator.change_output_language llm lang
        = PyResult.ok (if llm.can_change_language_or_not then doesnt_have_msg
            else cant_change_msg) llm
    ∧ LLMTranslator.change_input_language llm lang
        = PyResult.ok (if llm.can_change_language_or_not then doesnt_have_msg
            else cant_change_msg) llm
    ∧ OfflineTranslator.change_output_language off lang
        = ((if off.can_change_language_or_not then doesnt_have_msg
            else cant_change_msg), off)
    ∧ OfflineTranslator.change_input_language off lang
        = ((if off.can_change_language_or_not then doesnt_have_msg
            else cant_change_msg), off) := by
  have hc1 : llm.check_if_language_available lang = false := h1
  have hc2 : off.check_if_language_available lang = false := h2
  refine ⟨?_, ?_, ?_, ?_⟩
  · by_cases hcc : llm.can_change_language_or_not <;>
      simp [LLMTranslator.change_output_language, hcc, hc1]
  · by_cases hcc : llm.can_change_language_or_not <;>
      simp [LLMTranslator.change_input_language, hcc, hc1]
  · by_cases hcc : off.can_change_language_or_not <;>
      simp [OfflineTranslator.change_output_language, hcc, hc2]
  · by_cases hcc : off.can_change_language_or_not <;>
      simp [OfflineTranslator.change_input_language, hcc, hc2]

/-- Witness for C6 (amended): a concrete LLM session (language changes
enabled) and a concrete offline session, each asked for a language neither
supports. -/
theorem unsupported_language_soft_reject_witness :
    LLMTranslator.change_output_language st0W "Klingon"
        = PyResult.ok (if st0W.can_change_language_or_not then doesnt_have_msg
            else cant_change_msg) st0W
    ∧ LLMTranslator.change_input_language st0W "Klingon"
        = PyResult.ok (if st0W.can_change_language_or_not then doesnt_have_msg
            else cant_change_msg) st0W
    ∧ OfflineTranslator.change_output_language offlineDflt "Klingon"
        = ((if offlineDflt.can_change_language_or_not then doesnt_have_msg
            else cant_change_msg), offlineDflt)
    ∧ OfflineTranslator.change_input_language offlineDflt "Klingon"
        = ((if offlineDflt.can_change_language_or_not then doesnt_have_msg
            else cant_change_msg), offlineDflt) :=
  unsupported_language_soft_reject st0W offlineDflt "Klingon"
    (by decide) (by decide)

theorem asStringList_map_str (strs : List String) :
    asStringList (strs.map JValue.str) = some strs := by
  induction strs with
  | nil => rfl
  | cons s rest ih => simp [asStringList, ih]

/-- C4: a command envelope whose message is `translate sentences` and whose
content is a list of strings is rewritten by payload validation to the
`translate batch` kind carrying the validated string list; the handler
dispatches that payload to the translator's `translate_batch` and the
response is the list-shaped serialization of whatever it returns; a list
containing a non-string fails content validation. -/
theorem legacy_translate_list_normalized_to_batch (strs : List String)
    {σ : Type} (ops : TranslatorOps σ) (st : σ) :
    validatePayload "translate sentences" (JValue.list (strs.map JValue.str))
        = Except.ok (ValidPayload.translateBatch strs)
    ∧ receiveCommand ops st (ValidPayload.translateBatch strs)
        = (ops.translate_batch st strs).map Response.strList
    ∧ validatePayload "translate sentences" (JValue.list [JValue.int 3])
        = Except.error "content must be a list of strings" := by
  refine ⟨?_, rfl, rfl⟩
  have h1 : parseCommand "translate sentences" = some Command.translate_sentences := by
    decide
  simp [validatePayload, h1, asStringList_map_str]

/-- C5: in every state reachable from a successfully constructed LLM
session, a language change whose target is supported (language changes are
enabled on this backend and stay enabled) succeeds and resets the history
to exactly one system entry, rendered from the configured template with the
new language pair; the substitution mapping contains only the placeholders
actually occurring in the template, so a template lacking a placeholder
renders without error (and successful construction rules out any other
placeholder name). -/
theorem language_change_resets_history (oracle : List Message → String)
    (config : LLMTranslatorSettings) (dictionary : List (String × String))
    (st0 : LLMTranslator) (ops : List LLMOp) (lang : String)
    (hinit : LLMTranslator.init config dictionary = PyResult.ok () st0)
    (ha : (LLMTranslator.run oracle st0 ops).check_if_language_available lang
        = true) :
    (∃ rendered,
      pyFormat (subsFor config.system_prompt
          (LLMTranslator.run oracle st0 ops).config.input_language lang)
          config.system_prompt = Except.ok rendered
      ∧ LLMTranslator.change_output_language
            (LLMTranslator.run oracle st0 ops) lang
          = PyResult.ok ("output language changed to " ++ lang)
              { LLMTranslator.run oracle st0 ops with
                config := { (LLMTranslator.run oracle st0 ops).config with
                  output_language := lang },
                system_prompt := rendered,
                messages := [Message.mk "system" rendered] })
    ∧ (∃ rendered,
      pyFormat (subsFor config.system_prompt lang
          (LLMTranslator.run oracle st0 ops).config.output_language)
          config.system_prompt = Except.ok rendered
      ∧ LLMTranslator.change_input_language
            (LLMTranslator.run oracle st0 ops) lang
          = PyResult.ok ("input language changed to " ++ lang)
              { LLMTranslator.run oracle st0 ops with
                config := { (LLMTranslator.run oracle st0 ops).config with
                  input_language := lang },
                system_prompt := rendered,
                messages := [Message.mk "system" rendered] }) := by
  obtain ⟨hcfg, hcc0, _, _, _⟩ := init_ok_shape config dictionary st0 hinit
  have hinv := run_preserves_prompt_flag oracle st0 ops
  have hts : (LLMTranslator.run oracle st0 ops).config.system_prompt
      = config.system_prompt := hinv.1.trans (by rw [hcfg])
  have hcc : (LLMTranslator.run oracle st0 ops).can_change_language_or_not
      = true := hinv.2.trans hcc0
  have hok : TemplateOk (LLMTranslator.run oracle st0 ops).config.system_prompt
      = true := by
    rw [hts]
    exact templateOk_of_init_ok config dictionary st0 hinit
  constructor
  · obtain ⟨r, hr, he⟩ :=
      change_output_success (LLMTranslator.run oracle st0 ops) lang hcc ha hok
    rw [hts] at hr
    exact ⟨r, hr, he⟩
  · obtain ⟨r, hr, he⟩ :=
      change_input_success (LLMTranslator.run oracle st0 ops) lang hcc ha hok
    rw [hts] at hr
    exact ⟨r, hr, he⟩

/-- Witness for C5: the freshly constructed concrete session changing its
output (and input) language to Spanish. -/
theorem language_change_resets_history_witness :
    (∃ rendered,
      pyFormat (subsFor cfgW.system_prompt
          (LLMTranslator.run oracleNull st0W []).config.input_language "Spanish")
          cfgW.system_prompt = Except.ok rendered
      ∧ LLMTranslator.change_output_language
            (LLMTranslator.run oracleNull st0W []) "Spanish"
          = PyResult.ok ("output language changed to " ++ "Spanish")
              { LLMTranslator.run oracleNull st0W [] with
                config := { (LLMTranslator.run oracleNull st0W []).config with
                  output_language := "Spanish" },
                system_prompt := rendered,
                messages := [Message.mk "system" rendered] })
    ∧ (∃ rendered,
      pyFormat (subsFor cfgW.system_prompt "Spanish"
          (LLMTranslator.run oracleNull st0W []).config.output_language)
          cfgW.system_prompt = Except.ok rendered
      ∧ LLMTranslator.change_input_language
            (LLMTranslator.run oracleNull st0W []) "Spanish"
          = PyResult.ok ("input language changed to " ++ "Spanish")
              { LLMTranslator.run oracleNull st0W [] with
                config := { (LLMTranslator.run oracleNull st0W []).config with
                  input_language := "Spanish" },
                system_prompt := rendered,
                messages := [Message.mk "system" rendered] }) :=
  language_change_resets_history oracleNull cfgW [] st0W [] "Spanish"
    (by decide) (by decide)
